import Mathlib

/-!
Verification of the PetConnection pricing core (src/PCProfitCalculator.py and
src/PCRepricer.py) against its natural-language specification.

The numeric routines are embedded shallowly over `ℚ` (the Python code works on
exact decimal-representable values; all constants of the source — 0.01, 0.0001,
1e-9, percentages — are exact rationals).  The hardened variant in
PCProfitCalculator.py (zero guard, clamp of the candidate price at 0,
epsilon-plus-round to two decimals) is embedded in the root namespace, as the
spec (§9) designates it the canonical contract; the older unhardened variant of
PCRepricer.py, whose division can fault, is embedded with an `Option` result in
its own namespace.
-/

namespace PetConnection

/-- Hardcoded VAT of 20 percent (`VAT_VALUE = 20` in both source files, line 6). -/
def VAT_VALUE : ℚ := 20

/-- Profit fraction of a candidate selling price, translated from
`compute_profit_percentage` in src/PCProfitCalculator.py lines 9-33
(the variant with the `sell_price == 0` guard). -/
def compute_profit_percentage (sell_price post_cost cost_price platform_fee : ℚ)
    (extra_cost : ℚ) : ℚ :=
  if sell_price = 0 then 0
  else
    let sell_price_minus_fee := sell_price * (1 - platform_fee / 100)
    let sell_price_vat := sell_price / 120 * 20
    let post_cost_vat := post_cost * (VAT_VALUE / 100)
    let cost_price_vat := cost_price * (VAT_VALUE / 100)
    let total_vat_paid := post_cost_vat + cost_price_vat
    let income_after_fees := sell_price_minus_fee - post_cost
    let extra_vat_due := sell_price_vat - total_vat_paid
    let profit := income_after_fees - (cost_price + cost_price_vat + extra_vat_due + extra_cost)
    profit / sell_price

/-- Solver tolerance on the profit fraction (`tolerance = 0.0001`). -/
def tolerance : ℚ := 1 / 10000

/-- Epsilon added before the 2-decimal rounding (`1e-9` in the source). -/
def eps : ℚ := 1 / 1000000000

/-- Round-half-to-even on an exact rational, the semantics of Python `round`. -/
def roundHalfEven (q : ℚ) : ℤ :=
  let f := ⌊q⌋
  let r := q - f
  if r < 1 / 2 then f
  else if 1 / 2 < r then f + 1
  else if f % 2 = 0 then f else f + 1

/-- Rounding to 2 decimal places, the semantics of Python `round(x, 2)`. -/
def round2 (q : ℚ) : ℚ :=
  (roundHalfEven (q * 100) : ℚ) / 100

/-- Closed-form initial guess of the solver
(src/PCProfitCalculator.py lines 43-45). -/
def initial_sell_price (cost_price post_cost platform_fee target_profit_pct extra_cost : ℚ) : ℚ :=
  (cost_price + post_cost + extra_cost) *
    (1 + platform_fee / 100 + VAT_VALUE / 100 + target_profit_pct / 100)

/-- The solver's search loop (src/PCProfitCalculator.py lines 50-63), with the
remaining iteration budget as fuel.  Stops on tolerance; on a downward step that
would cross 0 the candidate is clamped to 0 and the loop breaks. -/
def loop (post_cost cost_price platform_fee extra_cost target_profit_decimal : ℚ) :
    Nat → ℚ → ℚ
  | 0, sell_price => sell_price
  | n + 1, sell_price =>
    let diff := compute_profit_percentage sell_price post_cost cost_price platform_fee
      extra_cost - target_profit_decimal
    if |diff| < tolerance then sell_price
    else if diff < 0 then
      loop post_cost cost_price platform_fee extra_cost target_profit_decimal n
        (sell_price + 1 / 100)
    else if sell_price - 1 / 100 < 0 then 0
    else
      loop post_cost cost_price platform_fee extra_cost target_profit_decimal n
        (sell_price - 1 / 100)

/-- One search iteration's update of the candidate price: step up by 0.01 when the
achieved profit is below target, otherwise step down by 0.01 clamping at 0. -/
def stepFn (post_cost cost_price platform_fee extra_cost target_profit_decimal : ℚ)
    (sell_price : ℚ) : ℚ :=
  if compute_profit_percentage sell_price post_cost cost_price platform_fee extra_cost -
      target_profit_decimal < 0 then sell_price + 1 / 100
  else if sell_price - 1 / 100 < 0 then 0
  else sell_price - 1 / 100

/-- The price solver, translated from `find_selling_price` in
src/PCProfitCalculator.py lines 36-69: clamped initial guess, up to 10000 search
iterations, epsilon-plus-round to 2 decimals, profit recomputed at the rounded
price. -/
def find_selling_price (cost_price post_cost platform_fee target_profit_pct extra_cost : ℚ) :
    ℚ × ℚ :=
  let target_profit_decimal := target_profit_pct / 100
  let sell_price0 :=
    max 0 (initial_sell_price cost_price post_cost platform_fee target_profit_pct extra_cost)
  let final := loop post_cost cost_price platform_fee extra_cost target_profit_decimal
    10000 sell_price0
  let sell_price := round2 (final + eps)
  (sell_price,
    compute_profit_percentage sell_price post_cost cost_price platform_fee extra_cost)

namespace PCRepricer

/-- Profit fraction as computed by the older variant in src/PCRepricer.py lines
8-30: same arithmetic but no `sell_price == 0` guard, so the final division
faults (Python `ZeroDivisionError`) at `sell_price = 0`; the fault is modelled
as `none`. -/
def compute_profit_percentage (sell_price post_cost cost_price platform_fee : ℚ)
    (extra_cost : ℚ) : Option ℚ :=
  if sell_price = 0 then none
  else
    let sell_price_minus_fee := sell_price * (1 - platform_fee / 100)
    let sell_price_vat := sell_price / 120 * 20
    let post_cost_vat := post_cost * (VAT_VALUE / 100)
    let cost_price_vat := cost_price * (VAT_VALUE / 100)
    let total_vat_paid := post_cost_vat + cost_price_vat
    let income_after_fees := sell_price_minus_fee - post_cost
    let extra_vat_due := sell_price_vat - total_vat_paid
    let profit := income_after_fees - (cost_price + cost_price_vat + extra_vat_due + extra_cost)
    some (profit / sell_price)

end PCRepricer

/-- A postage option as read from the configuration: a cost and an optional
eligibility ceiling (`max_value`) on the product's cost price. -/
structure PostageData where
  cost : ℚ
  max_value : Option ℚ
deriving DecidableEq

/-- Two-decimal rendering of a currency amount, the semantics of the Python
format `:.2f` used when building option labels and removal messages. -/
def fmt2 (q : ℚ) : String :=
  let n := roundHalfEven (q * 100)
  let a := n.natAbs
  let sign := if n < 0 then "-" else ""
  let fracPart := a % 100
  sign ++ toString (a / 100) ++ "." ++
    (if fracPart < 10 then "0" ++ toString fracPart else toString fracPart)

/-- Eligibility test of a postage option: excluded exactly when it carries a
`max_value` and the cost price strictly exceeds it. -/
def excludedOpt (cost_price : ℚ) (d : PostageData) : Bool :=
  match d.max_value with
  | some mv => decide (mv < cost_price)
  | none => false

/-- Translated from `format_postage_options` in src/PCProfitCalculator.py lines
85-101 (identical in src/PCRepricer.py lines 71-87): walks the option map in
order, keeping eligible options as (label, cost) pairs and collecting one
removal message for each ineligible option. -/
def format_postage_options (postage_options : List (String × PostageData))
    (cost_price : ℚ) : List (String × ℚ) × List String :=
  match postage_options with
  | [] => ([], [])
  | (key, data) :: rest =>
    let result := format_postage_options rest cost_price
    match data.max_value with
    | some mv =>
      if cost_price > mv then
        (result.1, (key ++ " (max cost: £" ++ fmt2 mv ++ ") not available") :: result.2)
      else
        ((key ++ " (Cost: £" ++ fmt2 data.cost ++ ")", data.cost) :: result.1, result.2)
    | none =>
      ((key ++ " (Cost: £" ++ fmt2 data.cost ++ ")", data.cost) :: result.1, result.2)

/-- One row of the quantity-discount table (spec §3 QuantityDiscountRow). -/
structure QuantityDiscountRow where
  quantity : ℕ
  profit : ℚ
  baselineTotal : ℚ
  discountAmount : ℚ
  sellPrice : ℚ
  discountPct : ℚ
deriving DecidableEq

/-- Row of the quantity-discount table for tier `q`, translated from the
multiple-quantities branch of src/PCProfitCalculator.py lines 243-265 (same
arithmetic in src/PCRepricer.py lines 169-184): an independent solver call on
`cost_price * q` with tier-q postage, a baseline of q times the unit price
solved with tier-1 postage, and a discount percentage guarded when the baseline
total is not positive. -/
def quantityRow (cost_price : ℚ) (postage_by_quantity : ℕ → ℚ)
    (fee target_profit_pct extra_cost : ℚ) (q : ℕ) : QuantityDiscountRow :=
  let baseline_unit_sell_price :=
    (find_selling_price cost_price (postage_by_quantity 1) fee target_profit_pct extra_cost).1
  let total_cost := cost_price * q
  let post_cost_q := postage_by_quantity q
  let res := find_selling_price total_cost post_cost_q fee target_profit_pct extra_cost
  let baseline_total := baseline_unit_sell_price * q
  let discount_amount := baseline_total - res.1
  let discount_pct := if baseline_total > 0 then discount_amount / baseline_total * 100 else 0
  ⟨q, res.2, baseline_total, discount_amount, res.1, discount_pct⟩

/-- Modelled from the spec: the vatPct-parametrized Profit Model of spec §4.1,
whose `vatPct` input does not exist in the source (both source files hardcode
`VAT_VALUE = 20`).  Steps 1-7 of §4.1 are followed verbatim; in particular the
output-VAT component stays the fixed ratio `sellPrice / 120 * 20` independent of
`vatPct`, exactly as §4.1 step 2 states. -/
def spec_computeProfitPercentage (sellPrice postCost costPrice platformFeePct vatPct extraCost : ℚ) : ℚ :=
  if sellPrice = 0 then 0
  else
    let netOfFee := sellPrice * (1 - platformFeePct / 100)
    let sellPriceVatComponent := sellPrice / 120 * 20
    let postCostVat := postCost * (vatPct / 100)
    let costPriceVat := costPrice * (vatPct / 100)
    let totalVatPaid := postCostVat + costPriceVat
    let incomeAfterFees := netOfFee - postCost
    let extraVatDue := sellPriceVatComponent - totalVatPaid
    let profit := incomeAfterFees - (costPrice + costPriceVat + extraVatDue + extraCost)
    profit / sellPrice

/-- Modelled from the spec: the search loop of the vatPct-parametrized Price
Solver of spec §4.2 (missing from the source in this parametrized form), with
the same tolerance, fixed 0.01 step and clamp-at-0 exit as the source loop. -/
def spec_loop (postCost costPrice platformFeePct vatPct extraCost target : ℚ) :
    Nat → ℚ → ℚ
  | 0, sellPrice => sellPrice
  | n + 1, sellPrice =>
    let diff := spec_computeProfitPercentage sellPrice postCost costPrice platformFeePct
      vatPct extraCost - target
    if |diff| < tolerance then sellPrice
    else if diff < 0 then
      spec_loop postCost costPrice platformFeePct vatPct extraCost target n
        (sellPrice + 1 / 100)
    else if sellPrice - 1 / 100 < 0 then 0
    else
      spec_loop postCost costPrice platformFeePct vatPct extraCost target n
        (sellPrice - 1 / 100)

/-- Modelled from the spec: the vatPct-parametrized Price Solver contract of
spec §4.2 (missing from the source in this parametrized form): clamped
closed-form initial guess, at most 10000 iterations, epsilon-plus-round to two
decimals, profit recomputed at the rounded price. -/
def spec_findSellingPrice (costPrice postCost platformFeePct vatPct targetProfitPct extraCost : ℚ) :
    ℚ × ℚ :=
  let target := targetProfitPct / 100
  let initial := (costPrice + postCost + extraCost) *
    (1 + platformFeePct / 100 + vatPct / 100 + targetProfitPct / 100)
  let sellPrice0 := max 0 initial
  let final := spec_loop postCost costPrice platformFeePct vatPct extraCost target
    10000 sellPrice0
  let sellPrice := round2 (final + eps)
  (sellPrice,
    spec_computeProfitPercentage sellPrice postCost costPrice platformFeePct vatPct extraCost)

end PetConnection

namespace PetConnection

/-! ### Helper lemmas -/

/-- Closed form of the profit fraction away from the guard: the fee and VAT
terms are linear in the selling price, so the fraction is a constant minus
`(0.8 post + cost + extra) / sellPrice`. -/
lemma compute_profit_percentage_closed_form (s p c f e : ℚ) (hs : s ≠ 0) :
    compute_profit_percentage s p c f e =
      (1 - f / 100 - 1 / 6) - (4 / 5 * p + c + e) / s := by
  rw [compute_profit_percentage, if_neg hs, VAT_VALUE]
  field_simp
  ring

/-- A search iteration that meets the tolerance returns the current candidate. -/
lemma loop_succ_tol (p c f e t s : ℚ) (n : ℕ)
    (h : |compute_profit_percentage s p c f e - t| < tolerance) :
    loop p c f e t (n + 1) s = s := by
  simp [loop, h]

/-- A search iteration below target steps the candidate up by 0.01. -/
lemma loop_succ_up (p c f e t s : ℚ) (n : ℕ)
    (h1 : ¬ |compute_profit_percentage s p c f e - t| < tolerance)
    (h2 : compute_profit_percentage s p c f e - t < 0) :
    loop p c f e t (n + 1) s = loop p c f e t n (s + 1 / 100) := by
  simp [loop, h1, h2]

/-- The spec-modelled search loop: tolerance met returns the candidate. -/
lemma spec_loop_succ_tol (p c f v e t s : ℚ) (n : ℕ)
    (h : |spec_computeProfitPercentage s p c f v e - t| < tolerance) :
    spec_loop p c f v e t (n + 1) s = s := by
  simp [spec_loop, h]

/-- The spec-modelled search loop: below target steps up by 0.01. -/
lemma spec_loop_succ_up (p c f v e t s : ℚ) (n : ℕ)
    (h1 : ¬ |spec_computeProfitPercentage s p c f v e - t| < tolerance)
    (h2 : spec_computeProfitPercentage s p c f v e - t < 0) :
    spec_loop p c f v e t (n + 1) s = spec_loop p c f v e t n (s + 1 / 100) := by
  simp [spec_loop, h1, h2]

/-- The search loop never leaves the nonnegative half-line: the upward step and
both downward outcomes (clamp to 0, or a step that stays at or above 0)
preserve nonnegativity of the candidate price. -/
lemma loop_nonneg (p c f e t : ℚ) : ∀ (n : ℕ) (s : ℚ), 0 ≤ s → 0 ≤ loop p c f e t n s := by
  intro n
  induction n with
  | zero => intro s hs; simpa [loop] using hs
  | succ n ih =>
    intro s hs
    simp only [loop]
    split_ifs with h1 h2 h3
    · exact hs
    · exact ih _ (by linarith)
    · exact le_refl 0
    · exact ih _ (by linarith [not_lt.mp h3])

/-- Half-even rounding of a nonnegative rational is nonnegative. -/
lemma roundHalfEven_nonneg (q : ℚ) (h : 0 ≤ q) : 0 ≤ roundHalfEven q := by
  rw [roundHalfEven]
  have hf : (0 : ℤ) ≤ ⌊q⌋ := Int.floor_nonneg.mpr h
  split_ifs <;> omega

/-- Two-decimal rounding of a nonnegative rational is nonnegative. -/
lemma round2_nonneg (q : ℚ) (h : 0 ≤ q) : 0 ≤ round2 q := by
  rw [round2]
  have h1 : (0 : ℤ) ≤ roundHalfEven (q * 100) := roundHalfEven_nonneg _ (by positivity)
  have h2 : (0 : ℚ) ≤ (roundHalfEven (q * 100) : ℚ) := by exact_mod_cast h1
  positivity

/-- The price returned by the solver is never negative: the initial guess is
clamped to 0, the loop preserves nonnegativity, and rounding a nonnegative
value stays nonnegative. -/
lemma find_selling_price_fst_nonneg (c p f t e : ℚ) :
    0 ≤ (find_selling_price c p f t e).1 := by
  simp only [find_selling_price]
  apply round2_nonneg
  have h0 : (0 : ℚ) ≤ max 0 (initial_sell_price c p f t e) := le_max_left _ _
  have h1 := loop_nonneg p c f e (t / 100) 10000 _ h0
  have heps : (0 : ℚ) ≤ eps := by norm_num [eps]
  linarith

/-- The search loop with fuel `n` performs at most `n` iterations: its result is
the candidate reached after some `k ≤ n` applications of the per-iteration
update `stepFn`. -/
lemma loop_eq_iterate (p c f e t : ℚ) :
    ∀ (n : ℕ) (s : ℚ), ∃ k ≤ n, loop p c f e t n s = (stepFn p c f e t)^[k] s := by
  intro n
  induction n with
  | zero => intro s; exact ⟨0, le_refl 0, rfl⟩
  | succ n ih =>
    intro s
    by_cases h1 : |compute_profit_percentage s p c f e - t| < tolerance
    · exact ⟨0, Nat.zero_le _, by simp [loop, h1]⟩
    · by_cases h2 : compute_profit_percentage s p c f e - t < 0
      · obtain ⟨k, hk, heq⟩ := ih (s + 1 / 100)
        refine ⟨k + 1, Nat.succ_le_succ hk, ?_⟩
        rw [loop_succ_up p c f e t s n h1 h2, heq, Function.iterate_succ_apply,
          stepFn, if_pos h2]
      · by_cases h3 : s - 1 / 100 < 0
        · refine ⟨1, by omega, ?_⟩
          have hl : loop p c f e t (n + 1) s = 0 := by
            simp only [loop]
            rw [if_neg h1, if_neg h2, if_pos h3]
          have hs : stepFn p c f e t s = 0 := by
            rw [stepFn, if_neg h2, if_pos h3]
          rw [hl, Function.iterate_one, hs]
        · obtain ⟨k, hk, heq⟩ := ih (s - 1 / 100)
          refine ⟨k + 1, Nat.succ_le_succ hk, ?_⟩
          have hst : stepFn p c f e t s = s - 1 / 100 := by
            rw [stepFn, if_neg h2, if_neg h3]
          rw [Function.iterate_succ_apply, hst, ← heq]
          simp only [loop]
          rw [if_neg h1, if_neg h2, if_neg h3]

/-- Consistency of the spec-modelled Profit Model with the source: at the
hardcoded rate `vatPct = 20` the two agree everywhere. -/
lemma spec_cpp_vat20 (s p c f e : ℚ) :
    spec_computeProfitPercentage s p c f 20 e = compute_profit_percentage s p c f e := by
  unfold spec_computeProfitPercentage compute_profit_percentage VAT_VALUE
  rfl

/-! ### Claim theorems -/

/-- C1: for every positive selling price, `compute_profit_percentage` equals the
seven-step reference formula of spec §4.1 — profit is the fee-reduced revenue
minus postage minus (cost price, cost VAT, the net VAT due with the fixed
`sellPrice / 120 * 20` output component, and extra cost), all divided by the
selling price; the unguarded variant in PCRepricer.py computes the same value
there. -/
theorem profit_formula_seven_step (s p c f e : ℚ) (hs : 0 < s) :
    compute_profit_percentage s p c f e =
      (s * (1 - f / 100) - p -
        (c + c * 20 / 100 + (s / 120 * 20 - (p * 20 / 100 + c * 20 / 100)) + e)) / s ∧
    PCRepricer.compute_profit_percentage s p c f e =
      some (compute_profit_percentage s p c f e) := by
  constructor
  · rw [compute_profit_percentage, if_neg hs.ne', VAT_VALUE]
    ring
  · rw [PCRepricer.compute_profit_percentage, if_neg hs.ne',
      compute_profit_percentage, if_neg hs.ne']

/-- Witness for C1 at the concrete input (3, 1, 1, 10, 1). -/
theorem profit_formula_seven_step_witness :
    (0 : ℚ) < 3 ∧
    (compute_profit_percentage 3 1 1 10 1 =
      (3 * (1 - 10 / 100) - 1 -
        (1 + 1 * 20 / 100 + (3 / 120 * 20 - (1 * 20 / 100 + 1 * 20 / 100)) + 1)) / 3 ∧
     PCRepricer.compute_profit_percentage 3 1 1 10 1 =
      some (compute_profit_percentage 3 1 1 10 1)) :=
  ⟨by norm_num, profit_formula_seven_step 3 1 1 10 1 (by norm_num)⟩

/-- C2: at selling price 0 the guarded Profit Model returns exactly 0 for every
choice of the other parameters — the division is never performed. -/
theorem zero_sell_price_guard (p c f e : ℚ) :
    compute_profit_percentage 0 p c f e = 0 := by
  rw [compute_profit_percentage, if_pos rfl]

/-- C3 counterexample: with postCost = costPrice = extraCost = 0 (all
nonnegative, as the claim allows) the profit fraction is the same at selling
prices 1 and 2, so it is not strictly increasing. -/
theorem profit_not_strictly_monotone :
    (0 : ℚ) < 1 ∧ (1 : ℚ) < 2 ∧
    compute_profit_percentage 1 0 0 7 0 = compute_profit_percentage 2 0 0 7 0 := by
  refine ⟨by norm_num, by norm_num, ?_⟩
  norm_num [compute_profit_percentage, VAT_VALUE]

/-- C3 amended: over positive selling prices the profit fraction is monotone
nondecreasing in the selling price, and strictly increasing as soon as
`0.8·postCost + costPrice + extraCost` is positive (with all three zero it is
constant). -/
theorem profit_monotone_in_sell_price (p c f e s1 s2 : ℚ)
    (hp : 0 ≤ p) (hc : 0 ≤ c) (he : 0 ≤ e) (h1 : 0 < s1) (h12 : s1 < s2) :
    compute_profit_percentage s1 p c f e ≤ compute_profit_percentage s2 p c f e ∧
    (0 < 4 / 5 * p + c + e →
      compute_profit_percentage s1 p c f e < compute_profit_percentage s2 p c f e) := by
  have h2 : 0 < s2 := lt_trans h1 h12
  rw [compute_profit_percentage_closed_form s1 p c f e h1.ne',
    compute_profit_percentage_closed_form s2 p c f e h2.ne']
  constructor
  · have hle : (4 / 5 * p + c + e) / s2 ≤ (4 / 5 * p + c + e) / s1 := by
      rw [div_le_div_iff₀ h2 h1]
      nlinarith
    linarith
  · intro hB
    have hlt : (4 / 5 * p + c + e) / s2 < (4 / 5 * p + c + e) / s1 := by
      rw [div_lt_div_iff₀ h2 h1]
      nlinarith
    linarith

/-- Witness for the amended C3 at (p, c, f, e, s1, s2) = (1, 1, 0, 0, 1, 2). -/
theorem profit_monotone_in_sell_price_witness :
    (0 : ℚ) ≤ 1 ∧ (0 : ℚ) ≤ 1 ∧ (0 : ℚ) ≤ 0 ∧ (0 : ℚ) < 1 ∧ (1 : ℚ) < 2 ∧
    compute_profit_percentage 1 1 1 0 0 < compute_profit_percentage 2 1 1 0 0 :=
  ⟨by norm_num, by norm_num, le_refl 0, by norm_num, by norm_num,
    (profit_monotone_in_sell_price 1 1 0 0 1 2 (by norm_num) (by norm_num) (le_refl 0)
      (by norm_num) (by norm_num)).2 (by norm_num)⟩

/-- C4: the solver's result is obtained from at most 10000 search iterations —
its returned price is the epsilon-plus-rounded value of the candidate reached
after some `k ≤ 10000` applications of the per-iteration update, starting from
the clamped initial guess; in particular a run that never meets the tolerance
still returns the last candidate rather than any error. -/
theorem solver_bounded_iterations (c p f t e : ℚ) :
    ∃ k ≤ 10000,
      (find_selling_price c p f t e).1 =
        round2 ((stepFn p c f e (t / 100))^[k]
          (max 0 (initial_sell_price c p f t e)) + eps) := by
  obtain ⟨k, hk, heq⟩ := loop_eq_iterate p c f e (t / 100) 10000
    (max 0 (initial_sell_price c p f t e))
  refine ⟨k, hk, ?_⟩
  simp only [find_selling_price]
  rw [heq]

/-- C5: the pair returned by the solver is exactly (rounded price, profit at the
rounded price): the first component is the loop's final candidate with the
1e-9 epsilon added and rounded to 2 decimals, and the second component is the
Profit Model re-evaluated at that rounded first component. -/
theorem solver_rounds_and_recomputes (c p f t e : ℚ) :
    (find_selling_price c p f t e).1 =
      round2 (loop p c f e (t / 100) 10000
        (max 0 (initial_sell_price c p f t e)) + eps) ∧
    (find_selling_price c p f t e).2 =
      compute_profit_percentage (find_selling_price c p f t e).1 p c f e :=
  ⟨rfl, rfl⟩

/-- C6: for nonnegative cost price, postage and extra cost the solver's returned
selling price is nonnegative (initial guess clamped at 0, downward steps clamped
at 0, rounding preserves the sign). -/
theorem solver_price_nonneg (c p f t e : ℚ)
    (_hc : 0 ≤ c) (_hp : 0 ≤ p) (_he : 0 ≤ e) :
    0 ≤ (find_selling_price c p f t e).1 :=
  find_selling_price_fst_nonneg c p f t e

/-- Witness for C6 at the concrete input (1, 1, 10, 16, 0). -/
theorem solver_price_nonneg_witness :
    (0 : ℚ) ≤ 1 ∧ (0 : ℚ) ≤ 1 ∧ (0 : ℚ) ≤ 0 ∧
    0 ≤ (find_selling_price 1 1 10 16 0).1 :=
  ⟨by norm_num, by norm_num, le_refl 0,
    solver_price_nonneg 1 1 10 16 0 (by norm_num) (by norm_num) (le_refl 0)⟩

/-- C8: the postage formatter keeps exactly the options that are not excluded
(preserving order, one labelled entry each), emits exactly one removal message
per excluded option, and an option is excluded precisely when it carries a
`max_value` strictly below the cost price — so an option with
`max_value = cost_price` is still included. -/
theorem format_postage_options_spec (opts : List (String × PostageData)) (cp : ℚ) :
    (format_postage_options opts cp).1 =
      (opts.filter (fun kd => ! excludedOpt cp kd.2)).map
        (fun kd => (kd.1 ++ " (Cost: £" ++ fmt2 kd.2.cost ++ ")", kd.2.cost)) ∧
    (format_postage_options opts cp).2 =
      (opts.filter (fun kd => excludedOpt cp kd.2)).map
        (fun kd => kd.1 ++ " (max cost: £" ++ fmt2 (kd.2.max_value.getD 0) ++ ") not available") ∧
    (∀ d : PostageData, excludedOpt cp d = true ↔ ∃ mv, d.max_value = some mv ∧ mv < cp) := by
  have main : ∀ l : List (String × PostageData),
      format_postage_options l cp =
        ((l.filter (fun kd => ! excludedOpt cp kd.2)).map
          (fun kd => (kd.1 ++ " (Cost: £" ++ fmt2 kd.2.cost ++ ")", kd.2.cost)),
         (l.filter (fun kd => excludedOpt cp kd.2)).map
          (fun kd => kd.1 ++ " (max cost: £" ++ fmt2 (kd.2.max_value.getD 0) ++
            ") not available")) := by
    intro l
    induction l with
    | nil => rfl
    | cons kd rest ih =>
      obtain ⟨key, data⟩ := kd
      simp only [format_postage_options, ih]
      cases hmv : data.max_value with
      | none => simp [excludedOpt, hmv]
      | some mv =>
        by_cases hcmp : mv < cp
        · simp [excludedOpt, hmv, hcmp, gt_iff_lt]
        · simp [excludedOpt, hmv, hcmp, gt_iff_lt]
  refine ⟨by rw [main], by rw [main], ?_⟩
  intro d
  cases hmv : d.max_value with
  | none => simp [excludedOpt, hmv]
  | some mv => simp [excludedOpt, hmv]

/-- C9: row `q` of the quantity-discount table comes from an independent solver
call on `costPrice · q` with tier-q postage; its baseline total is q times the
unit price solved with tier-1 postage; the discount amount is baseline minus
the tier price; and the discount percentage is `amount / baseline × 100`,
with 0 when the baseline total is 0 (no division by zero). -/
theorem quantity_row_spec (cost_price : ℚ) (postage : ℕ → ℚ) (fee t e : ℚ) (q : ℕ)
    (_hq : 1 ≤ q) (_hc : 0 ≤ cost_price) (_hp : 0 ≤ postage 1) (_he : 0 ≤ e) :
    (quantityRow cost_price postage fee t e q).sellPrice =
      (find_selling_price (cost_price * q) (postage q) fee t e).1 ∧
    (quantityRow cost_price postage fee t e q).profit =
      (find_selling_price (cost_price * q) (postage q) fee t e).2 ∧
    (quantityRow cost_price postage fee t e q).baselineTotal =
      (find_selling_price cost_price (postage 1) fee t e).1 * q ∧
    (quantityRow cost_price postage fee t e q).discountAmount =
      (quantityRow cost_price postage fee t e q).baselineTotal -
        (quantityRow cost_price postage fee t e q).sellPrice ∧
    ((quantityRow cost_price postage fee t e q).baselineTotal = 0 →
      (quantityRow cost_price postage fee t e q).discountPct = 0) ∧
    ((quantityRow cost_price postage fee t e q).baselineTotal ≠ 0 →
      (quantityRow cost_price postage fee t e q).discountPct =
        (quantityRow cost_price postage fee t e q).discountAmount /
          (quantityRow cost_price postage fee t e q).baselineTotal * 100) := by
  have hbt : (quantityRow cost_price postage fee t e q).baselineTotal =
      (find_selling_price cost_price (postage 1) fee t e).1 * q := rfl
  have hdp : (quantityRow cost_price postage fee t e q).discountPct =
      if (find_selling_price cost_price (postage 1) fee t e).1 * (q : ℚ) > 0 then
        ((find_selling_price cost_price (postage 1) fee t e).1 * q -
          (find_selling_price (cost_price * q) (postage q) fee t e).1) /
          ((find_selling_price cost_price (postage 1) fee t e).1 * q) * 100
      else 0 := rfl
  refine ⟨rfl, rfl, rfl, rfl, ?_, ?_⟩
  · intro h0
    rw [hbt] at h0
    rw [hdp, if_neg]
    rw [h0]
    exact lt_irrefl 0
  · intro h0
    rw [hbt] at h0
    have hnn : (0 : ℚ) ≤ (find_selling_price cost_price (postage 1) fee t e).1 * q :=
      mul_nonneg (find_selling_price_fst_nonneg _ _ _ _ _) (by positivity)
    have hpos : (0 : ℚ) < (find_selling_price cost_price (postage 1) fee t e).1 * q :=
      lt_of_le_of_ne hnn (Ne.symm h0)
    rw [hdp, if_pos hpos]
    rfl

/-- Witness for C9 at cost price 1, constant postage 1, zero fee, target and
extra cost, tier q = 2: the baseline total is twice the unit price. -/
theorem quantity_row_spec_witness :
    1 ≤ 2 ∧ (0 : ℚ) ≤ 1 ∧ (0 : ℚ) ≤ 1 ∧ (0 : ℚ) ≤ 0 ∧
    (quantityRow 1 (fun _ => 1) 0 0 0 2).baselineTotal =
      (find_selling_price 1 1 0 0 0).1 * ((2 : ℕ) : ℚ) :=
  ⟨by norm_num, by norm_num, by norm_num, le_refl 0,
    (quantity_row_spec 1 (fun _ => 1) 0 0 0 2 (by norm_num) (by norm_num) (by norm_num)
      (le_refl 0)).2.2.1⟩

/-- C10 counterexample: at sellPrice = 1 with postCost = costPrice = extraCost
= 0 the profit fraction equals the bound `1 - platformFee/100 - 1/6` exactly,
so the bound is reached. -/
theorem profit_bound_attained :
    (0 : ℚ) < 1 ∧
    compute_profit_percentage 1 0 0 0 0 = 1 - 0 / 100 - 1 / 6 := by
  refine ⟨by norm_num, ?_⟩
  norm_num [compute_profit_percentage, VAT_VALUE]

/-- C10 amended: for positive selling price and nonnegative costs the profit
fraction equals `(1 - fee/100 - 1/6) - (0.8·post + cost + extra)/sellPrice`; it
never exceeds the bound `1 - fee/100 - 1/6`, is strictly below it whenever
`0.8·post + cost + extra` is positive, and attains it in the degenerate case
where all three vanish. -/
theorem profit_upper_bound (s p c f e : ℚ) (hs : 0 < s)
    (hp : 0 ≤ p) (hc : 0 ≤ c) (he : 0 ≤ e) :
    compute_profit_percentage s p c f e =
      (1 - f / 100 - 1 / 6) - (4 / 5 * p + c + e) / s ∧
    compute_profit_percentage s p c f e ≤ 1 - f / 100 - 1 / 6 ∧
    (0 < 4 / 5 * p + c + e →
      compute_profit_percentage s p c f e < 1 - f / 100 - 1 / 6) := by
  have hcf := compute_profit_percentage_closed_form s p c f e hs.ne'
  refine ⟨hcf, ?_, ?_⟩
  · rw [hcf]
    have hd : 0 ≤ (4 / 5 * p + c + e) / s := div_nonneg (by linarith) hs.le
    linarith
  · intro hB
    rw [hcf]
    have hd : 0 < (4 / 5 * p + c + e) / s := div_pos hB hs
    linarith

/-- C7 counterexample: with platformFeePct = 0, vatPct = 0, extraCost = 0,
targetProfitPct = 0, costPrice = 0.5 and postCost = 0, the spec-modelled solver
returns selling price 0.6 — which differs from costPrice + postCost = 0.5 by
0.1, ten times the 0.01 rounding granularity, although the target margin term
is zero.  The fixed `sellPrice / 120 * 20` output-VAT component keeps the
computation from degenerating to a simple markup even at vatPct = 0. -/
theorem spec_zero_vat_markup_counterexample :
    spec_findSellingPrice (1 / 2) 0 0 0 0 0 = (3 / 5, 0) ∧
    (3 / 5 : ℚ) - (1 / 2 + 0) = 1 / 10 ∧
    ¬ |(3 / 5 : ℚ) - (1 / 2 + 0)| < 1 / 100 := by
  refine ⟨?_, by norm_num, by norm_num [abs_lt]⟩
  have s0 : spec_loop 0 (1/2) 0 0 0 0 10000 (1/2) =
      spec_loop 0 (1/2) 0 0 0 0 9999 (51/100) := by
    rw [show (10000 : ℕ) = 9999 + 1 from rfl,
      spec_loop_succ_up 0 (1/2) 0 0 0 0 (1/2) 9999
        (by norm_num [spec_computeProfitPercentage, tolerance, abs_lt])
        (by norm_num [spec_computeProfitPercentage])]
    norm_num
  have s1 : spec_loop 0 (1/2) 0 0 0 0 9999 (51/100) =
      spec_loop 0 (1/2) 0 0 0 0 9998 (52/100) := by
    rw [show (9999 : ℕ) = 9998 + 1 from rfl,
      spec_loop_succ_up 0 (1/2) 0 0 0 0 (51/100) 9998
        (by norm_num [spec_computeProfitPercentage, tolerance, abs_lt])
        (by norm_num [spec_computeProfitPercentage])]
    norm_num
  have s2 : spec_loop 0 (1/2) 0 0 0 0 9998 (52/100) =
      spec_loop 0 (1/2) 0 0 0 0 9997 (53/100) := by
    rw [show (9998 : ℕ) = 9997 + 1 from rfl,
      spec_loop_succ_up 0 (1/2) 0 0 0 0 (52/100) 9997
        (by norm_num [spec_computeProfitPercentage, tolerance, abs_lt])
        (by norm_num [spec_computeProfitPercentage])]
    norm_num
  have s3 : spec_loop 0 (1/2) 0 0 0 0 9997 (53/100) =
      spec_loop 0 (1/2) 0 0 0 0 9996 (54/100) := by
    rw [show (9997 : ℕ) = 9996 + 1 from rfl,
      spec_loop_succ_up 0 (1/2) 0 0 0 0 (53/100) 9996
        (by norm_num [spec_computeProfitPercentage, tolerance, abs_lt])
        (by norm_num [spec_computeProfitPercentage])]
    norm_num
  have s4 : spec_loop 0 (1/2) 0 0 0 0 9996 (54/100) =
      spec_loop 0 (1/2) 0 0 0 0 9995 (55/100) := by
    rw [show (9996 : ℕ) = 9995 + 1 from rfl,
      spec_loop_succ_up 0 (1/2) 0 0 0 0 (54/100) 9995
        (by norm_num [spec_computeProfitPercentage, tolerance, abs_lt])
        (by norm_num [spec_computeProfitPercentage])]
    norm_num
  have s5 : spec_loop 0 (1/2) 0 0 0 0 9995 (55/100) =
      spec_loop 0 (1/2) 0 0 0 0 9994 (56/100) := by
    rw [show (9995 : ℕ) = 9994 + 1 from rfl,
      spec_loop_succ_up 0 (1/2) 0 0 0 0 (55/100) 9994
        (by norm_num [spec_computeProfitPercentage, tolerance, abs_lt])
        (by norm_num [spec_computeProfitPercentage])]
    norm_num
  have s6 : spec_loop 0 (1/2) 0 0 0 0 9994 (56/100) =
      spec_loop 0 (1/2) 0 0 0 0 9993 (57/100) := by
    rw [show (9994 : ℕ) = 9993 + 1 from rfl,
      spec_loop_succ_up 0 (1/2) 0 0 0 0 (56/100) 9993
        (by norm_num [spec_computeProfitPercentage, tolerance, abs_lt])
        (by norm_num [spec_computeProfitPercentage])]
    norm_num
  have s7 : spec_loop 0 (1/2) 0 0 0 0 9993 (57/100) =
      spec_loop 0 (1/2) 0 0 0 0 9992 (58/100) := by
    rw [show (9993 : ℕ) = 9992 + 1 from rfl,
      spec_loop_succ_up 0 (1/2) 0 0 0 0 (57/100) 9992
        (by norm_num [spec_computeProfitPercentage, tolerance, abs_lt])
        (by norm_num [spec_computeProfitPercentage])]
    norm_num
  have s8 : spec_loop 0 (1/2) 0 0 0 0 9992 (58/100) =
      spec_loop 0 (1/2) 0 0 0 0 9991 (59/100) := by
    rw [show (9992 : ℕ) = 9991 + 1 from rfl,
      spec_loop_succ_up 0 (1/2) 0 0 0 0 (58/100) 9991
        (by norm_num [spec_computeProfitPercentage, tolerance, abs_lt])
        (by norm_num [spec_computeProfitPercentage])]
    norm_num
  have s9 : spec_loop 0 (1/2) 0 0 0 0 9991 (59/100) =
      spec_loop 0 (1/2) 0 0 0 0 9990 (60/100) := by
    rw [show (9991 : ℕ) = 9990 + 1 from rfl,
      spec_loop_succ_up 0 (1/2) 0 0 0 0 (59/100) 9990
        (by norm_num [spec_computeProfitPercentage, tolerance, abs_lt])
        (by norm_num [spec_computeProfitPercentage])]
    norm_num
  have s10 : spec_loop 0 (1/2) 0 0 0 0 9990 (60/100) = 60/100 := by
    rw [show (9990 : ℕ) = 9989 + 1 from rfl,
      spec_loop_succ_tol 0 (1/2) 0 0 0 0 (60/100) 9989
        (by norm_num [spec_computeProfitPercentage, tolerance, abs_lt])]
  have ht : (0 : ℚ) / 100 = 0 := by norm_num
  have hmax : max (0 : ℚ) ((1/2 + 0 + 0) * (1 + 0 + 0 + 0)) = 1/2 := by norm_num
  simp only [spec_findSellingPrice, ht, hmax]
  rw [s0, s1, s2, s3, s4, s5, s6, s7, s8, s9, s10, Prod.mk.injEq]
  constructor
  · norm_num [round2, roundHalfEven, eps]
  · norm_num [round2, roundHalfEven, eps, spec_computeProfitPercentage]

/-- C7 amended: with platformFeePct = 0, vatPct = 0 and extraCost = 0, the
selling price whose profit fraction equals the target is
`(costPrice + postCost) / (5/6 − targetProfitPct/100)` — about 1.2 times the
simple markup at zero margin — while at the claimed price
`costPrice + postCost` the profit fraction is −1/6, far from the target; the
fixed 20% output-VAT ratio prevents degeneration to a simple markup. -/
theorem spec_zero_vat_solution (c p t : ℚ) (hcp : 0 < c + p) (ht : t / 100 < 5 / 6) :
    spec_computeProfitPercentage ((c + p) / (5 / 6 - t / 100)) p c 0 0 0 = t / 100 ∧
    spec_computeProfitPercentage (c + p) p c 0 0 0 = -(1 / 6) := by
  have hden : (0 : ℚ) < 5 / 6 - t / 100 := by linarith
  have hs : (c + p) / (5 / 6 - t / 100) ≠ 0 := ne_of_gt (div_pos hcp hden)
  have key : ∀ s : ℚ, s ≠ 0 →
      spec_computeProfitPercentage s p c 0 0 0 = 5 / 6 - (c + p) / s := by
    intro s hs0
    rw [spec_computeProfitPercentage, if_neg hs0]
    field_simp
    ring
  have hcancel : (c + p) / ((c + p) / (5 / 6 - t / 100)) = 5 / 6 - t / 100 := by
    rw [div_div_eq_mul_div, mul_comm, mul_div_cancel_right₀ _ hcp.ne']
  constructor
  · rw [key _ hs, hcancel]
    ring
  · rw [key _ hcp.ne', div_self hcp.ne']
    norm_num

/-- Witness for the amended C7 at costPrice = 1/2, postCost = 0, target 0. -/
theorem spec_zero_vat_solution_witness :
    (0 : ℚ) < 1 / 2 + 0 ∧ (0 : ℚ) / 100 < 5 / 6 ∧
    spec_computeProfitPercentage ((1 / 2 + 0) / (5 / 6 - 0 / 100)) 0 (1 / 2) 0 0 0 = 0 / 100 ∧
    spec_computeProfitPercentage (1 / 2 + 0) 0 (1 / 2) 0 0 0 = -(1 / 6) :=
  ⟨by norm_num, by norm_num,
    (spec_zero_vat_solution (1 / 2) 0 0 (by norm_num) (by norm_num)).1,
    (spec_zero_vat_solution (1 / 2) 0 0 (by norm_num) (by norm_num)).2⟩

/-- Witness for the amended C10 at (s, p, c, f, e) = (2, 1, 1, 15, 0). -/
theorem profit_upper_bound_witness :
    (0 : ℚ) < 2 ∧ (0 : ℚ) ≤ 1 ∧ (0 : ℚ) ≤ 1 ∧ (0 : ℚ) ≤ 0 ∧
    compute_profit_percentage 2 1 1 15 0 =
      (1 - 15 / 100 - 1 / 6) - (4 / 5 * 1 + 1 + 0) / 2 ∧
    compute_profit_percentage 2 1 1 15 0 < 1 - 15 / 100 - 1 / 6 := by
  have h := profit_upper_bound 2 1 1 15 0 (by norm_num) (by norm_num) (by norm_num)
    (le_refl 0)
  exact ⟨by norm_num, by norm_num, by norm_num, le_refl 0, h.1, h.2.2 (by norm_num)⟩

end PetConnection
